import Mathlib

/-!
Verification of the CityBus Go live-tracking and route-matching engine.

The JavaScript/TypeScript source is shallowly embedded: JS strings are
modelled as `List Char`, JS numbers holding epoch milliseconds as `Int`,
and geographic coordinates as `ℝ`.  Each definition below is a direct
translation of the corresponding function in the repository; the file/line
of the source is recorded in the doc comment.
-/

/-- A JS string, modelled as a list of characters. -/
abbrev Str := List Char

/-- JS `String.prototype.toLowerCase`, modelled characterwise. -/
def toLower (s : Str) : Str := s.map Char.toLower

/-- JS `String.prototype.trim`: drop leading and trailing whitespace. -/
def trim (s : Str) : Str :=
  ((s.dropWhile Char.isWhitespace).reverse.dropWhile Char.isWhitespace).reverse

/-- JS `s.includes(sub)`: `sub` occurs as a contiguous substring of `s`.
In particular `s.includes("")` is `true` for every `s`. -/
def includes (s sub : Str) : Bool := decide (sub <:+: s)

/-- The stop-matching predicate of `CommuterSearch.onSubmit`
(src/src/components/CommuterSearch.tsx lines 50–55), applied to an
already-normalized query `nq`:
`stop.toLowerCase().includes(nq) || nq.includes(stop.toLowerCase())`.
Note the stop is lowercased but not trimmed. -/
def stopMatches (nq stop : Str) : Bool :=
  includes (toLower stop) nq || includes nq (toLower stop)

/-- Query normalization as performed in `onSubmit` lines 28–29:
`query.toLowerCase().trim()`. -/
def normalizeQuery (q : Str) : Str := trim (toLower q)

/-- StopMatcher.matches as implemented: the raw query is
lowercased and trimmed (lines 28–29), then tested against the stop with
the bidirectional containment of lines 50–55. -/
def stopMatcher (query stop : Str) : Bool :=
  stopMatches (normalizeQuery query) stop

/-- Modelled from the spec's words (§4.1 StopMatcher), for comparison with
the implementation: BOTH inputs are lowercased and trimmed before the
bidirectional containment test. -/
def stopMatcherSpec (query stop : Str) : Bool :=
  let nq := normalizeQuery query
  let ns := trim (toLower stop)
  includes ns nq || includes nq ns

/-- A route configuration record (`RouteConfig` in src/src/App.tsx),
as read back from the `route_config_*` entries of the store. -/
structure RouteConfig where
  routeId : Str
  startTime : Str
  endTime : Str
  stops : List Str
deriving DecidableEq, Repr

/-- A route qualifies for one end of the search when some stop matches the
normalized query (`routeData.stops.some(...)`, lines 50–55). -/
def routeMatchesQuery (nq : Str) (r : RouteConfig) : Bool :=
  r.stops.any (fun stop => stopMatches nq stop)

/-- The scan-and-filter loop of `onSubmit` lines 42–61: iterate the stored
routes in store order and keep those with a stop matching the normalized
start query and a stop matching the normalized destination query. -/
def searchRoutes (nstart ndest : Str) (routes : List RouteConfig) : List RouteConfig :=
  routes.filter (fun r => routeMatchesQuery nstart r && routeMatchesQuery ndest r)

/-- The error taxonomy of the search preconditions (spec §7): both
early-return notifications of `onSubmit` lines 31–39 signal `InvalidQuery`. -/
inductive SearchError where
  | invalidQuery
deriving DecidableEq, Repr

instance {ε α : Type} [DecidableEq ε] [DecidableEq α] : DecidableEq (Except ε α) := by
  intro a b
  cases a <;> cases b
  case error.error e f =>
    exact if h : e = f then isTrue (by rw [h]) else isFalse (fun hh => h (by injection hh))
  case error.ok e x => exact isFalse (fun h => Except.noConfusion h)
  case ok.error x e => exact isFalse (fun h => Except.noConfusion h)
  case ok.ok x y =>
    exact if h : x = y then isTrue (by rw [h]) else isFalse (fun hh => h (by injection hh))

/-- RouteSearchEngine.search: the guarded search of `onSubmit`
lines 28–61.  Blank (after normalization) or identical queries are
rejected via the early returns of lines 31–39; otherwise the filtered
route list is produced (an empty list is a valid result). -/
def search (startRaw destRaw : Str) (routes : List RouteConfig) :
    Except SearchError (List RouteConfig) :=
  let start := normalizeQuery startRaw
  let destination := normalizeQuery destRaw
  if start.isEmpty || destination.isEmpty then .error .invalidQuery
  else if start = destination then .error .invalidQuery
  else .ok (searchRoutes start destination routes)

/-- The full outcome of `CommuterSearch.onSubmit` (lines 27–69), including
the presentational branch on an empty result list. -/
inductive SubmitResult where
  | notifyBlank
  | notifySame
  | showResults (buses : List RouteConfig)
  | notifyNoBuses
deriving DecidableEq, Repr

/-- CommuterSearch.onSubmit, lines 27–69 of the source file. -/
def onSubmit (startRaw destRaw : Str) (routes : List RouteConfig) : SubmitResult :=
  let start := normalizeQuery startRaw
  let destination := normalizeQuery destRaw
  if start.isEmpty || destination.isEmpty then .notifyBlank
  else if start = destination then .notifySame
  else
    let availableBuses := searchRoutes start destination routes
    if 0 < availableBuses.length then .showResults availableBuses
    else .notifyNoBuses

/-- The non-blank stops kept by the route-creation flows:
`routeData.stops.filter(stop => stop.trim())`
(src/src/components/DriverRegister.tsx line 71,
src/src/components/DriverDashboard.tsx line 315 of the admin-create part). -/
def validStops (stops : List Str) : List Str :=
  stops.filter (fun s => !(trim s).isEmpty)

/-- The stops part of `DriverRegister.onSubmit` (lines 47–77): creation is
rejected (`none`) when every entered stop is blank
(`routeData.stops.every(stop => !stop.trim())`); otherwise the filtered
non-blank stops are saved. -/
def saveRouteStops (stops : List Str) : Option (List Str) :=
  if stops.all (fun s => (trim s).isEmpty) then none
  else some (validStops stops)

/-- A live-position sample (`LocationData` in src/src/App.tsx): decimal
degree coordinates and an epoch-millisecond timestamp. -/
structure LocationData where
  lat : ℝ
  lng : ℝ
  timestamp : Int

/-- BusList.checkBusOnline (src/src/components/CommuterSearch.tsx
lines 216–223): absent record means offline; otherwise the record is live
iff `timestamp > Date.now() - 5 * 60 * 1000`. -/
def checkBusOnline (record : Option LocationData) (now : Int) : Bool :=
  match record with
  | none => false
  | some r => decide (r.timestamp > now - 5 * 60 * 1000)

/-- The staleness test of MapScreen.updateBusLocation
(src/unnamed/part_000 lines 186–190): `timestamp > Date.now() - 5*60*1000`. -/
def isRecent (timestamp now : Int) : Bool :=
  decide (timestamp > now - 5 * 60 * 1000)

/-- The haversine great-circle distance computed inside
MapScreen.calculateETA (src/unnamed/part_000 lines 245–254), in km,
with Earth radius 6371 km; `atan2'` is JS `Math.atan2`. -/
noncomputable def atan2' (y x : ℝ) : ℝ :=
  if 0 < x then Real.arctan (y / x)
  else if x < 0 then
    (if 0 ≤ y then Real.arctan (y / x) + Real.pi else Real.arctan (y / x) - Real.pi)
  else
    (if 0 < y then Real.pi / 2 else if y < 0 then -(Real.pi / 2) else 0)

noncomputable def haversineDistance (busLat busLng userLat userLng : ℝ) : ℝ :=
  let R : ℝ := 6371
  let dLat := (userLat - busLat) * Real.pi / 180
  let dLon := (userLng - busLng) * Real.pi / 180
  let a := Real.sin (dLat / 2) * Real.sin (dLat / 2) +
    Real.cos (busLat * Real.pi / 180) * Real.cos (userLat * Real.pi / 180) *
      Real.sin (dLon / 2) * Real.sin (dLon / 2)
  let c := 2 * atan2' (Real.sqrt a) (Real.sqrt (1 - a))
  R * c

/-- MapScreen.calculateETA (src/unnamed/part_000 lines 244–268):
distance / 25 km/h, in minutes rounded to the nearest whole minute
(JS `Math.round`, half away from zero upward, matching Mathlib `round`
on the nonnegative values arising here), then the label policy. -/
noncomputable def calculateETA (busLat busLng userLat userLng : ℝ) : String :=
  let distance := haversineDistance busLat busLng userLat userLng
  let averageSpeed : ℝ := 25
  let timeInHours := distance / averageSpeed
  let timeInMinutes : ℤ := round (timeInHours * 60)
  if timeInMinutes < 1 then "Arriving now"
  else if timeInMinutes = 1 then "1 minute"
  else toString timeInMinutes ++ " minutes"

/-- The component state of DriverDashboard
(src/src/components/DriverDashboard.tsx lines 17–18):
`isSharing` and `locationWatcherId`. -/
structure DashboardState where
  isSharing : Bool
  locationWatcherId : Option Nat
deriving DecidableEq, Repr

/-- The browser geolocation service: `watchPosition` hands out fresh watch
ids; a watch keeps delivering position / error callbacks until
`clearWatch` removes it. -/
structure GeoSystem where
  nextWatchId : Nat
  activeWatches : List Nat
deriving DecidableEq, Repr

/-- The world visible to the driver dashboard: its component state, the
geolocation service state, and the single `bus_location_<routeId>` record
of the driver's route. -/
structure DriverWorld where
  dash : DashboardState
  geo : GeoSystem
  busLocation : Option LocationData

/-- DriverDashboard.startSharingLocation (lines 30–53): registers a watch
(the success and error callbacks are modelled as the `update` / `geoError`
events below), stores the watch id and sets `isSharing`.  The geolocation
service and a route configuration are assumed available (the early return
of line 31 otherwise). -/
def startSharingLocation (w : DriverWorld) : DriverWorld :=
  let id := w.geo.nextWatchId
  { w with
    geo := { nextWatchId := id + 1, activeWatches := id :: w.geo.activeWatches }
    dash := { isSharing := true, locationWatcherId := some id } }

/-- DriverDashboard.stopSharingLocation (lines 55–61): only when a watch id
is held, clear that watch and reset the state; otherwise do nothing. -/
def stopSharingLocation (w : DriverWorld) : DriverWorld :=
  match w.dash.locationWatcherId with
  | some id =>
    { w with
      geo := { w.geo with activeWatches := w.geo.activeWatches.erase id }
      dash := { isSharing := false, locationWatcherId := none } }
  | none => w

/-- DriverDashboard.toggleLocationSharing (lines 63–69). -/
def toggleLocationSharing (w : DriverWorld) : DriverWorld :=
  if w.dash.isSharing then stopSharingLocation w else startSharingLocation w

/-- The browser delivers a successful position update to watch `id`: if the
watch has not been cleared, the success callback of lines 34–42 runs and
unconditionally writes the LocationRecord. -/
def positionUpdate (w : DriverWorld) (id : Nat) (lat lng : ℝ) (now : Int) :
    DriverWorld :=
  if id ∈ w.geo.activeWatches then
    { w with busLocation := some ⟨lat, lng, now⟩ }
  else w

/-- The browser delivers an error to watch `id`: if the watch has not been
cleared, the error callback of lines 43–47 runs: it sets
`isSharing := false` and `locationWatcherId := null` but does NOT call
`clearWatch`, so the watch itself stays registered. -/
def positionError (w : DriverWorld) (id : Nat) : DriverWorld :=
  if id ∈ w.geo.activeWatches then
    { w with dash := { isSharing := false, locationWatcherId := none } }
  else w

/-- The events that can reach the dashboard: the user toggling the sharing
button, logging out (`handleLogout` line 72 calls `stopSharingLocation`),
and the geolocation service delivering an update or an error. -/
inductive DriverEvent where
  | toggle
  | logoutEv
  | update (id : Nat) (lat lng : ℝ) (now : Int)
  | geoError (id : Nat)

/-- One event step of the driver dashboard. -/
def stepDriver (w : DriverWorld) : DriverEvent → DriverWorld
  | .toggle => toggleLocationSharing w
  | .logoutEv => stopSharingLocation w
  | .update id lat lng now => positionUpdate w id lat lng now
  | .geoError id => positionError w id

/-- Run a sequence of events. -/
def runDriver (w : DriverWorld) (evs : List DriverEvent) : DriverWorld :=
  evs.foldl stepDriver w

/-- The initial world: dashboard not sharing, no watches, no location
record stored. -/
def initialWorld : DriverWorld :=
  { dash := { isSharing := false, locationWatcherId := none }
    geo := { nextWatchId := 0, activeWatches := [] }
    busLocation := none }

/-- The geolocation service is in step with the dashboard: the active
watches are exactly the one tracked by `locationWatcherId` (none if no id
is held).  This holds in every reachable state in which no position-source
error has fired while sharing. -/
def cleanGeo (w : DriverWorld) : Prop :=
  w.geo.activeWatches = (w.dash.locationWatcherId).toList

/-- Events that do not start a new sharing session. -/
def isPassive : DriverEvent → Bool
  | .toggle => false
  | _ => true

/-- A stored route all of whose stop entries are blank (here: one
empty-string stop), used to probe the search against claim C7. -/
def blankStopRoute : RouteConfig :=
  { routeId := "B9".toList
    startTime := "08:00".toList
    endTime := "20:00".toList
    stops := [[]] }

example : stopMatcher "Central".toList "Central Station".toList = true := by decide
example : stopMatcher " CENTRAL ".toList "central station".toList = true := by decide
example : stopMatcher "central".toList "mall".toList = false := by decide

/-- C1 counterexample: with query `"xabcy"` and stop `" abc "`, the spec's
doubly-normalized matcher answers true (the trimmed, lowercased stop
`"abc"` is contained in the query) but the implementation answers false,
because the stop is lowercased yet never trimmed. -/
theorem stopMatcher_spec_mismatch :
    stopMatcherSpec "xabcy".toList " abc ".toList = true ∧
    stopMatcher "xabcy".toList " abc ".toList = false := by decide

/-- C1 (amended): `StopMatcher.matches(q, s)` returns true iff the
lowercased (but NOT trimmed) stop contains the lowercased-and-trimmed
query as a substring, or the lowercased-and-trimmed query contains the
lowercased stop; only the query is trimmed before the containment test. -/
theorem stopMatcher_characterization (q s : Str) :
    stopMatcher q s = true ↔
      normalizeQuery q <:+: toLower s ∨ toLower s <:+: normalizeQuery q := by
  simp [stopMatcher, stopMatches, includes]

/-- C6 counterexample: at the matcher level an empty query matches every
stop (JS `"mall".includes("")` is true), contradicting the claim that an
empty query never matches. -/
theorem stopMatcher_empty_query_matches :
    stopMatcher "".toList "mall".toList = true := by decide

/-- C6 (amended): an empty (or whitespace-only) query matches EVERY stop
at the matcher level, since the empty normalized query is a substring of
every lowercased stop; the matcher is never invoked on a blank query by
the search, whose precondition check rejects blank input first. -/
theorem blank_query_behavior :
    (∀ q s : Str, (normalizeQuery q).isEmpty = true → stopMatcher q s = true) ∧
    (∀ (q d : Str) (routes : List RouteConfig), (normalizeQuery q).isEmpty = true →
      search q d routes = .error .invalidQuery) := by
  constructor
  · intro q s h
    have hq : normalizeQuery q = [] := List.isEmpty_iff.mp h
    simp [stopMatcher, stopMatches, includes, hq]
  · intro q d routes h
    simp [search, h]

/-- C6 witness: a whitespace-only query matches a concrete stop, and a
blank start query makes the search signal InvalidQuery. -/
theorem blank_query_behavior_witness :
    stopMatcher " ".toList "mall".toList = true ∧
    search "".toList "b".toList [] = Except.error SearchError.invalidQuery :=
  ⟨blank_query_behavior.1 " ".toList "mall".toList (by decide),
   blank_query_behavior.2 "".toList "b".toList [] (by decide)⟩

/-- C5: the search signals InvalidQuery exactly when the normalized start
query is blank, the normalized destination query is blank, or the two
normalized queries coincide — independently of the route contents; for
valid distinct queries it returns an ok result (possibly the empty list),
which is distinguishable from the error by construction. -/
theorem search_invalidQuery_iff (startRaw destRaw : Str) (routes : List RouteConfig) :
    (search startRaw destRaw routes = .error .invalidQuery ↔
      (normalizeQuery startRaw).isEmpty = true ∨
        (normalizeQuery destRaw).isEmpty = true ∨
        normalizeQuery startRaw = normalizeQuery destRaw) ∧
    ((normalizeQuery startRaw).isEmpty = false →
      (normalizeQuery destRaw).isEmpty = false →
      normalizeQuery startRaw ≠ normalizeQuery destRaw →
      search startRaw destRaw routes =
        .ok (searchRoutes (normalizeQuery startRaw) (normalizeQuery destRaw) routes)) := by
  constructor
  · unfold search
    by_cases h1 : (normalizeQuery startRaw).isEmpty = true
    · simp [h1]
    · by_cases h2 : (normalizeQuery destRaw).isEmpty = true
      · simp [h1, h2]
      · by_cases h3 : normalizeQuery startRaw = normalizeQuery destRaw
        · simp [h1, h2, h3]
        · simp [h1, h2, h3]
  · intro h1 h2 h3
    simp [search, h1, h2, h3]

/-- C5 witness: identical queries are rejected regardless of routes, and
valid distinct queries over an empty store give an ok empty result. -/
theorem search_invalidQuery_iff_witness :
    search "x".toList "x".toList [] = Except.error SearchError.invalidQuery ∧
    search "a".toList "b".toList [] = Except.ok [] :=
  ⟨(search_invalidQuery_iff "x".toList "x".toList []).1.mpr
      (Or.inr (Or.inr rfl)),
   (search_invalidQuery_iff "a".toList "b".toList []).2
      (by decide) (by decide) (by decide)⟩

/-- C2: for non-blank, distinct normalized queries, the search returns
exactly the routes having some stop matching the start query and some
stop matching the destination query, as a filter of the store's iteration
order (hence an order-preserving sublist, with no ranking). -/
theorem search_filters_routes (startRaw destRaw : Str) (routes : List RouteConfig)
    (hs : (normalizeQuery startRaw).isEmpty = false)
    (hd : (normalizeQuery destRaw).isEmpty = false)
    (hne : normalizeQuery startRaw ≠ normalizeQuery destRaw) :
    search startRaw destRaw routes =
      .ok (routes.filter (fun r =>
        routeMatchesQuery (normalizeQuery startRaw) r &&
        routeMatchesQuery (normalizeQuery destRaw) r)) ∧
    (searchRoutes (normalizeQuery startRaw) (normalizeQuery destRaw) routes).Sublist
      routes ∧
    (∀ r, r ∈ searchRoutes (normalizeQuery startRaw) (normalizeQuery destRaw) routes ↔
      r ∈ routes ∧
        (∃ stop ∈ r.stops, stopMatches (normalizeQuery startRaw) stop = true) ∧
        (∃ stop ∈ r.stops, stopMatches (normalizeQuery destRaw) stop = true)) := by
  refine ⟨by simp [search, searchRoutes, hs, hd, hne], List.filter_sublist _, ?_⟩
  intro r
  simp [searchRoutes, List.mem_filter, routeMatchesQuery, List.any_eq_true, and_assoc]

/-- C2 witness: a concrete two-route store in which exactly the first
route serves both queries, returned in store order. -/
theorem search_filters_routes_witness :
    search "central".toList "airport".toList
      [{ routeId := "B1".toList, startTime := [], endTime := [],
         stops := ["central station".toList, "airport".toList] },
       { routeId := "B2".toList, startTime := [], endTime := [],
         stops := ["mall road".toList] }] =
      .ok [{ routeId := "B1".toList, startTime := [], endTime := [],
             stops := ["central station".toList, "airport".toList] }] := by
  have h := (search_filters_routes "central".toList "airport".toList
    [{ routeId := "B1".toList, startTime := [], endTime := [],
       stops := ["central station".toList, "airport".toList] },
     { routeId := "B2".toList, startTime := [], endTime := [],
       stops := ["mall road".toList] }]
    (by decide) (by decide) (by decide)).1
  rw [h]
  decide

/-- C7 counterexample: a stored route whose every stop entry is blank is
nevertheless returned by the search for any pair of valid queries,
because an empty stop name is a substring of every query
(`start.includes("")` is true). -/
theorem blank_stop_route_included :
    blankStopRoute.stops.all (fun s => (trim s).isEmpty) = true ∧
    search "central".toList "airport".toList [blankStopRoute] =
      Except.ok [blankStopRoute] := by decide

/-- C7 (amended): the route-creation flows never produce a route with
zero non-blank stops (creation is rejected when all entered stops are
blank and blank entries are filtered out before saving), but the search
itself does not exclude such a route: a route containing an empty stop
name matches every query. -/
theorem route_creation_excludes_blank_stops :
    (∀ stops l, saveRouteStops stops = some l →
      l ≠ [] ∧ ∀ s ∈ l, (trim s).isEmpty = false) ∧
    (∀ (nq : Str) (r : RouteConfig), [] ∈ r.stops →
      routeMatchesQuery nq r = true) := by
  constructor
  · intro stops l h
    unfold saveRouteStops at h
    split at h
    · exact absurd h (by simp)
    · rename_i hall
      have hl : l = validStops stops := (Option.some.injEq _ _).mp h |>.symm
      subst hl
      constructor
      · intro hnil
        apply hall
        rw [List.all_eq_true]
        intro s hs
        by_contra hblank
        have : s ∈ validStops stops := by
          rw [validStops, List.mem_filter]
          exact ⟨hs, by simp [Bool.not_eq_true] at hblank ⊢; simp [hblank]⟩
        rw [hnil] at this
        exact absurd this (List.not_mem_nil s)
      · intro s hs
        have := (List.mem_filter.mp hs).2
        simpa using this
  · intro nq r h
    rw [routeMatchesQuery, List.any_eq_true]
    refine ⟨[], h, ?_⟩
    simp [stopMatches, includes, toLower]

/-- C7 witness: a concrete creation where the blank entry is dropped, the
result is nonempty, and a concrete all-blank route that still matches a
query. -/
theorem route_creation_excludes_blank_stops_witness :
    (["central".toList] ≠ ([] : List Str) ∧
      ∀ s ∈ ["central".toList], (trim s).isEmpty = false) ∧
    routeMatchesQuery "x".toList blankStopRoute = true :=
  ⟨route_creation_excludes_blank_stops.1 [" ".toList, "central".toList]
      ["central".toList] (by decide),
   route_creation_excludes_blank_stops.2 "x".toList blankStopRoute (by decide)⟩

/-- C3: liveness of a bus: an absent record is offline; a present record
is online iff `now - timestamp < 300000` ms, with an exclusive boundary:
online at a 299,999 ms age, offline at exactly 300,000 ms. -/
theorem checkBusOnline_threshold :
    (∀ now : Int, checkBusOnline none now = false) ∧
    (∀ (r : LocationData) (now : Int),
      checkBusOnline (some r) now = true ↔ now - r.timestamp < 300000) ∧
    (∀ (r : LocationData) (now : Int), now - r.timestamp = 299999 →
      checkBusOnline (some r) now = true) ∧
    (∀ (r : LocationData) (now : Int), now - r.timestamp = 300000 →
      checkBusOnline (some r) now = false) := by
  refine ⟨fun now => rfl, ?_, ?_, ?_⟩
  · intro r now
    simp only [checkBusOnline, decide_eq_true_eq]
    omega
  · intro r now h
    simp only [checkBusOnline, decide_eq_true_eq]
    omega
  · intro r now h
    simp only [checkBusOnline, decide_eq_false_iff_not]
    omega

/-- C3 witness: the boundary instances at a concrete record. -/
theorem checkBusOnline_threshold_witness :
    checkBusOnline (some ⟨0, 0, 0⟩) 299999 = true ∧
    checkBusOnline (some ⟨0, 0, 0⟩) 300000 = false :=
  ⟨checkBusOnline_threshold.2.2.1 ⟨0, 0, 0⟩ 299999 (by decide),
   checkBusOnline_threshold.2.2.2 ⟨0, 0, 0⟩ 300000 (by decide)⟩

/-- C10: a record whose timestamp lies in the future of `now` is reported
online by both liveness checks — the staleness test is the one-sided
comparison `timestamp > now - 300000` with no upper bound. -/
theorem future_timestamp_online (r : LocationData) (now : Int)
    (h : now < r.timestamp) :
    checkBusOnline (some r) now = true ∧ isRecent r.timestamp now = true := by
  constructor
  · simp only [checkBusOnline, decide_eq_true_eq]
    omega
  · simp only [isRecent, decide_eq_true_eq]
    omega

/-- C10 witness: a record stamped 1000 ms into the future is online. -/
theorem future_timestamp_online_witness :
    checkBusOnline (some ⟨0, 0, 1000⟩) 0 = true ∧ isRecent 1000 0 = true :=
  future_timestamp_online ⟨0, 0, 1000⟩ 0 (by decide)

/-- C8: the code violates the claim's final clause.  On a position-source
error the dashboard does transition to the inactive state (isSharing
false, watch id dropped), but the error handler never calls `clearWatch`,
so the still-registered success callback writes a LocationRecord on the
next position update — and the orphaned watch can no longer be cleared
(`stopSharingLocation` is a no-op once the id is null).  The trace below
evaluates the code on the failing input. -/
theorem error_orphans_watch_trace :
    (runDriver initialWorld [.toggle, .geoError 0]).dash.isSharing = false ∧
    (runDriver initialWorld [.toggle, .geoError 0]).dash.locationWatcherId = none ∧
    (runDriver initialWorld [.toggle, .geoError 0]).busLocation = none ∧
    (runDriver initialWorld
        [.toggle, .geoError 0, .update 0 1 2 5]).busLocation = some ⟨1, 2, 5⟩ ∧
    stopSharingLocation (runDriver initialWorld [.toggle, .geoError 0]) =
      runDriver initialWorld [.toggle, .geoError 0] :=
  ⟨rfl, rfl, rfl, rfl, rfl⟩

/-- Passive events (updates, errors, logout — anything that cannot start a
new watch) never write a LocationRecord once no watch is registered, and
leave the set of registered watches empty. -/
theorem passive_preserves (evs : List DriverEvent) (w : DriverWorld)
    (hw : w.geo.activeWatches = [])
    (hp : ∀ e ∈ evs, isPassive e = true) :
    (runDriver w evs).busLocation = w.busLocation ∧
    (runDriver w evs).geo.activeWatches = [] := by
  induction evs generalizing w with
  | nil => exact ⟨rfl, hw⟩
  | cons e evs ih =>
    have he : isPassive e = true := hp e (List.mem_cons_self e evs)
    have hrest : ∀ e' ∈ evs, isPassive e' = true :=
      fun e' h' => hp e' (List.mem_cons_of_mem e h')
    have hstep : (stepDriver w e).busLocation = w.busLocation ∧
        (stepDriver w e).geo.activeWatches = [] := by
      cases e with
      | toggle => simp [isPassive] at he
      | logoutEv =>
        cases hid : w.dash.locationWatcherId with
        | none => simp [stepDriver, stopSharingLocation, hid, hw]
        | some id => simp [stepDriver, stopSharingLocation, hid, hw]
      | update id lat lng now => simp [stepDriver, positionUpdate, hw]
      | geoError id => simp [stepDriver, positionError, hw]
    have hrun := ih (stepDriver w e) hstep.2 hrest
    exact ⟨hrun.1.trans hstep.1, hrun.2⟩

/-- Stopping from a state whose registered watches are exactly the tracked
one leaves no registered watch, does not touch the stored record, and
drops the id. -/
theorem stop_clean (w : DriverWorld) (hc : cleanGeo w) :
    (stopSharingLocation w).geo.activeWatches = [] ∧
    (stopSharingLocation w).busLocation = w.busLocation ∧
    (stopSharingLocation w).dash.locationWatcherId = none := by
  unfold cleanGeo at hc
  cases hid : w.dash.locationWatcherId with
  | none =>
    rw [hid] at hc
    simp [stopSharingLocation, hid, hc]
  | some id =>
    rw [hid] at hc
    simp [stopSharingLocation, hid, hc]

/-- C9 (amended): `stopSharing` when not active is a no-op (so a second
consecutive call does nothing), and — provided the registered watches are
exactly the tracked one, i.e. no position-source error has orphaned a
watch — after `stopSharingLocation` returns, no sequence of late updates,
errors or logouts ever writes a LocationRecord for the route. -/
theorem stopSharing_idempotent_and_guarded (w : DriverWorld) (hc : cleanGeo w)
    (evs : List DriverEvent) (hp : ∀ e ∈ evs, isPassive e = true) :
    (∀ v : DriverWorld, v.dash.locationWatcherId = none →
      stopSharingLocation v = v) ∧
    stopSharingLocation (stopSharingLocation w) = stopSharingLocation w ∧
    (runDriver (stopSharingLocation w) evs).busLocation = w.busLocation := by
  have hnoop : ∀ v : DriverWorld, v.dash.locationWatcherId = none →
      stopSharingLocation v = v := by
    intro v hv
    simp [stopSharingLocation, hv]
  refine ⟨hnoop, ?_, ?_⟩
  · cases hid : w.dash.locationWatcherId with
    | none =>
      rw [hnoop w hid]
      exact hnoop w hid
    | some id =>
      apply hnoop
      simp [stopSharingLocation, hid]
  · have h1 := stop_clean w hc
    have h2 := passive_preserves evs (stopSharingLocation w) h1.1 hp
    exact h2.1.trans h1.2.1

/-- C9 witness: start sharing from the initial world (a clean state), stop,
then deliver a late update on the cleared watch: no record is written. -/
theorem stopSharing_idempotent_and_guarded_witness :
    (runDriver (stopSharingLocation (startSharingLocation initialWorld))
        [.update 0 1 2 5]).busLocation = none := by
  have h := stopSharing_idempotent_and_guarded (startSharingLocation initialWorld)
    rfl [.update 0 1 2 5]
    (by
      intro e he
      rw [List.mem_singleton] at he
      subst he
      rfl)
  exact h.2.2

/-- C9 counterexample: the unguarded race is real once an error has
orphaned a watch.  Trace: start (watch 0), error (watch 0 orphaned),
start again (watch 1), stop (clears watch 1 only).  `stopSharingLocation`
has returned — the dashboard is inactive and holds no id — yet a late
update on the orphaned watch 0 still writes a LocationRecord. -/
theorem late_write_after_stop_trace :
    (runDriver initialWorld [.toggle, .geoError 0, .toggle, .toggle]).dash =
      { isSharing := false, locationWatcherId := none } ∧
    (runDriver initialWorld [.toggle, .geoError 0, .toggle, .toggle]).busLocation =
      none ∧
    (runDriver initialWorld
        [.toggle, .geoError 0, .toggle, .toggle, .update 0 1 2 5]).busLocation =
      some ⟨1, 2, 5⟩ :=
  ⟨rfl, rfl, rfl⟩

/-- Two identical points are at haversine distance zero. -/
theorem haversine_self (lat lng : ℝ) : haversineDistance lat lng lat lng = 0 := by
  have h0 : (lat - lat) * Real.pi / 180 / 2 = 0 := by ring
  have h1 : (lng - lng) * Real.pi / 180 / 2 = 0 := by ring
  simp only [haversineDistance]
  rw [h0, h1, Real.sin_zero]
  have h2 : (0:ℝ) * 0 +
      Real.cos (lat * Real.pi / 180) * Real.cos (lat * Real.pi / 180) * 0 * 0 = 0 := by
    ring
  rw [h2, Real.sqrt_zero, sub_zero, Real.sqrt_one]
  simp only [atan2']
  rw [if_pos (by norm_num : (0:ℝ) < 1)]
  norm_num [Real.arctan_zero]

/-- Within the principal branch, the two-argument arctangent applied to
the square roots arising in the haversine formula recovers the half
central angle. -/
theorem atan2_sqrt_sin (t : ℝ) (h1 : 0 ≤ Real.sin t) (h2 : 0 < Real.cos t)
    (h3 : -(Real.pi / 2) < t) (h4 : t < Real.pi / 2) :
    atan2' (Real.sqrt (Real.sin t * Real.sin t))
      (Real.sqrt (1 - Real.sin t * Real.sin t)) = t := by
  have hs : Real.sqrt (Real.sin t * Real.sin t) = Real.sin t := Real.sqrt_mul_self h1
  have hc2 : 1 - Real.sin t * Real.sin t = Real.cos t * Real.cos t := by
    nlinarith [Real.sin_sq_add_cos_sq t]
  have hcs : Real.sqrt (1 - Real.sin t * Real.sin t) = Real.cos t := by
    rw [hc2]
    exact Real.sqrt_mul_self (le_of_lt h2)
  rw [hs, hcs]
  simp only [atan2', if_pos h2]
  rw [← Real.tan_eq_sin_div_cos, Real.arctan_tan h3 h4]

/-- Two equatorial points whose longitudes differ by `360 t / π` degrees
(for a half central angle `t` in the principal branch) are exactly
`12742 t` km apart in the code's haversine metric (12742 = 2 · 6371). -/
theorem haversine_equator (t : ℝ) (h0 : 0 ≤ t) (h1 : t < Real.pi / 2) :
    haversineDistance 0 0 0 (360 * t / Real.pi) = 12742 * t := by
  have hpi : (0:ℝ) < Real.pi := Real.pi_pos
  simp only [haversineDistance]
  have e1 : ((0:ℝ) - 0) * Real.pi / 180 / 2 = 0 := by ring
  have e2 : ((360 * t / Real.pi : ℝ) - 0) * Real.pi / 180 / 2 = t := by
    have hne : Real.pi ≠ 0 := ne_of_gt hpi
    field_simp
    ring
  have e3 : (0:ℝ) * Real.pi / 180 = 0 := by ring
  rw [e1, e2, e3, Real.sin_zero, Real.cos_zero]
  have e4 : (0:ℝ) * 0 + 1 * 1 * Real.sin t * Real.sin t =
      Real.sin t * Real.sin t := by ring
  rw [e4]
  rw [atan2_sqrt_sin t
    (Real.sin_nonneg_of_nonneg_of_le_pi h0 (by linarith))
    (Real.cos_pos_of_mem_Ioo ⟨by linarith, h1⟩)
    (by linarith) h1]
  ring

/-- C4: the ETA estimator divides the haversine distance (Earth radius
6371 km) by the 25 km/h average speed, rounds the resulting minutes, and
applies the label policy: "Arriving now" when the rounded minutes are
below 1, "1 minute" at exactly 1, and the numeral followed by " minutes"
above 1; in particular identical points give "Arriving now" and a pair of
points exactly 25 km apart gives "60 minutes". -/
theorem calculateETA_spec :
    (∀ busLat busLng userLat userLng : ℝ,
      round (haversineDistance busLat busLng userLat userLng / 25 * 60) < 1 →
      calculateETA busLat busLng userLat userLng = "Arriving now") ∧
    (∀ busLat busLng userLat userLng : ℝ,
      round (haversineDistance busLat busLng userLat userLng / 25 * 60) = 1 →
      calculateETA busLat busLng userLat userLng = "1 minute") ∧
    (∀ busLat busLng userLat userLng : ℝ,
      1 < round (haversineDistance busLat busLng userLat userLng / 25 * 60) →
      calculateETA busLat busLng userLat userLng =
        toString (round (haversineDistance busLat busLng userLat userLng / 25 * 60)) ++
          " minutes") ∧
    (∀ lat lng : ℝ, calculateETA lat lng lat lng = "Arriving now") ∧
    (∀ busLat busLng userLat userLng : ℝ,
      haversineDistance busLat busLng userLat userLng = 25 →
      calculateETA busLat busLng userLat userLng = "60 minutes") := by
  refine ⟨?_, ?_, ?_, ?_, ?_⟩
  · intro b1 b2 u1 u2 h
    simp only [calculateETA]
    rw [if_pos h]
  · intro b1 b2 u1 u2 h
    simp only [calculateETA]
    rw [if_neg (by omega), if_pos h]
  · intro b1 b2 u1 u2 h
    simp only [calculateETA]
    rw [if_neg (by omega), if_neg (by omega)]
  · intro lat lng
    simp only [calculateETA, haversine_self]
    norm_num
  · intro b1 b2 u1 u2 h
    simp only [calculateETA, h]
    have h60 : (25:ℝ) / 25 * 60 = ((60:ℤ):ℝ) := by norm_num
    rw [h60, round_intCast]
    norm_num
    rfl

/-- C4 witness: identical points give "Arriving now" (rounded minutes 0);
the equatorial pair ≈0.417 km apart gives "1 minute"; the equatorial pair
exactly 25 km apart gives "60 minutes", which is also the generic numeral
label at that input. -/
theorem calculateETA_spec_witness :
    calculateETA 20 78 20 78 = "Arriving now" ∧
    calculateETA 0 0 0 (360 * (5 / 152904) / Real.pi) = "1 minute" ∧
    calculateETA 0 0 0 (360 * (25 / 12742) / Real.pi) = "60 minutes" ∧
    calculateETA 0 0 0 (360 * (25 / 12742) / Real.pi) =
      toString (round
        (haversineDistance 0 0 0 (360 * (25 / 12742) / Real.pi) / 25 * 60)) ++
      " minutes" := by
  have hpi3 : (3:ℝ) < Real.pi := Real.pi_gt_three
  have h25 : haversineDistance 0 0 0 (360 * (25 / 12742) / Real.pi) = 25 := by
    rw [haversine_equator (25 / 12742) (by norm_num) (by nlinarith)]
    norm_num
  have h1min : haversineDistance 0 0 0 (360 * (5 / 152904) / Real.pi) = 25 / 60 := by
    rw [haversine_equator (5 / 152904) (by norm_num) (by nlinarith)]
    norm_num
  refine ⟨?_, ?_, ?_, ?_⟩
  · refine calculateETA_spec.1 20 78 20 78 ?_
    rw [haversine_self]
    norm_num
  · refine calculateETA_spec.2.1 0 0 0 (360 * (5 / 152904) / Real.pi) ?_
    rw [h1min, show ((25:ℝ) / 60) / 25 * 60 = 1 by norm_num, round_one]
  · exact calculateETA_spec.2.2.2.2 0 0 0 (360 * (25 / 12742) / Real.pi) h25
  · refine calculateETA_spec.2.2.1 0 0 0 (360 * (25 / 12742) / Real.pi) ?_
    rw [h25, show (25:ℝ) / 25 * 60 = ((60:ℤ):ℝ) by norm_num, round_intCast]
    norm_num
